import Mathlib

/-!
Verification model of the ChatPlug Go client (`client.go`, `gql_client.go`).

The Go code is embedded shallowly:

* JSON documents are the inductive `Json`; `encoding/json` marshalling of the
  client's structs and unmarshalling into them are explicit functions.
  Unmarshal follows Go semantics: a missing or `null` field keeps the zero
  value without error; a type-mismatched field keeps the zero value and sets
  an error flag (Go records an `UnmarshalTypeError` but completes the rest of
  the decode, so callers receive the partially filled struct together with a
  non-nil error).
* Randomness (`crypto/rand.Read`) is a parameter: `GenerateID` takes the four
  random bytes that the call reads.
* Channel operations, logging, panics and transport calls are recorded as
  explicit effect values; a `panic` aborts the remainder of a statement
  sequence, which the `seqB` combinator threads through.
-/

inductive Json : Type
  | null
  | bool (b : Bool)
  | num (n : Int)
  | str (s : String)
  | arr (elems : List Json)
  | obj (fields : List (String × Json))
  deriving Inhabited

/-- Lookup of a key in a JSON object's field list (the objects built in this
development never repeat a key). -/
def jLookup : List (String × Json) → String → Option Json
  | [], _ => none
  | (k, v) :: rest, key => if k = key then some v else jLookup rest key

/-- Unmarshal of a `string` struct field: missing or `null` keeps the zero
value `""` without error; a non-string value keeps `""` and flags an error. -/
def strField (fields : List (String × Json)) (key : String) : String × Bool :=
  match jLookup fields key with
  | none => ("", false)
  | some (Json.str s) => (s, false)
  | some Json.null => ("", false)
  | some _ => ("", true)

/-- Unmarshal of an `int` struct field. -/
def intField (fields : List (String × Json)) (key : String) : Int × Bool :=
  match jLookup fields key with
  | none => (0, false)
  | some (Json.num n) => (n, false)
  | some Json.null => (0, false)
  | some _ => (0, true)

/-- Unmarshal of a nested struct field: missing keeps the zero value, a
present value is decoded by the field's own decoder. -/
def structField {α : Type} (dec : Json → α × Bool) (zero : α)
    (fields : List (String × Json)) (key : String) : α × Bool :=
  match jLookup fields key with
  | none => (zero, false)
  | some v => dec v

/-- Element-wise unmarshal of a JSON array; element errors are joined. -/
def decodeList {α : Type} (dec : Json → α × Bool) : List Json → List α × Bool
  | [] => ([], false)
  | x :: xs =>
    let hd := dec x
    let tl := decodeList dec xs
    (hd.1 :: tl.1, hd.2 || tl.2)

/-- Unmarshal of a slice-typed struct field. -/
def listField {α : Type} (dec : Json → α × Bool)
    (fields : List (String × Json)) (key : String) : List α × Bool :=
  match jLookup fields key with
  | none => ([], false)
  | some Json.null => ([], false)
  | some (Json.arr xs) => decodeList dec xs
  | some _ => ([], true)

/-- Unmarshal of one `string` slice element. -/
def decodeString : Json → String × Bool
  | Json.str s => (s, false)
  | Json.null => ("", false)
  | _ => ("", true)

/-- Model of `MessageAuthor` of gql_client.go. -/
structure MessageAuthor where
  id : String
  username : String
  originId : String
  avatarUrl : String
  deriving Inhabited

/-- Model of `AttachmentInput` of gql_client.go. -/
structure AttachmentInput where
  originId : String
  type : String
  sourceUrl : String
  deriving Inhabited

/-- Model of `Attachment` of gql_client.go. -/
structure Attachment where
  id : String
  originId : String
  type : String
  sourceUrl : String
  deriving Inhabited

/-- Model of `Thread` of gql_client.go. -/
structure Thread where
  id : String
  name : String
  originId : String
  threadGroupId : String
  iconUrl : String
  serviceInstanceId : String
  deriving Inhabited

/-- Model of `Message` of gql_client.go.  Note: in the source the `ID` field carries
the json tag `"string"` (not `"id"`), so it is decoded from key `"string"`. -/
structure Message where
  id : String
  originId : String
  author : MessageAuthor
  thread : Thread
  body : String
  threadGroupId : String
  attachments : List Attachment
  deriving Inhabited

/-- Model of `SearchThreadInput` of gql_client.go. -/
structure SearchThreadInput where
  originId : String
  name : String
  iconUrl : String
  deriving Inhabited

/-- Model of `ErrorLocation` of gql_client.go. -/
structure ErrorLocation where
  line : Int
  column : Int
  deriving Inhabited

/-- Model of `ErrorMessage` of gql_client.go; `Locations` is `[]*ErrorLocation`, so an
element may be a nil pointer, modelled as `none`. -/
structure ErrorMessage where
  message : String
  locations : List (Option ErrorLocation)
  deriving Inhabited

/-- Model of `MessageReceived` of gql_client.go. -/
structure MessageReceived where
  message : Message
  targetThreadId : String
  deriving Inhabited

/-- Model of `SearchRequest` of gql_client.go. -/
structure SearchRequest where
  query : String
  deriving Inhabited

/-- Model of `ConfigurationField` of gql_client.go. -/
structure ConfigurationField where
  type : String
  defaultValue : String
  optional : Bool
  hint : String
  mask : Bool
  deriving Inhabited

/-- Model of `ConfigurationRequest` of gql_client.go. -/
structure ConfigurationRequest where
  fields : List ConfigurationField
  deriving Inhabited

/-- Model of `ConfigurationResponse` of gql_client.go. -/
structure ConfigurationResponse where
  fieldValues : List String
  deriving Inhabited

/-- Anonymous `Data` struct of `searchRequestPayload`. -/
structure searchRequestPayloadData where
  subscribeToSearchRequests : SearchRequest
  deriving Inhabited

/-- Model of `searchRequestPayload` of gql_client.go. -/
structure searchRequestPayload where
  data : searchRequestPayloadData
  deriving Inhabited

/-- Anonymous `Data` struct of `messageReceivedPayload`. -/
structure messageReceivedPayloadData where
  messageReceived : MessageReceived
  deriving Inhabited

/-- Model of `messageReceivedPayload` of gql_client.go. -/
structure messageReceivedPayload where
  data : messageReceivedPayloadData
  deriving Inhabited

/-- Anonymous `Data` struct of `configurationReceivedPayload`. -/
structure configurationReceivedPayloadData where
  configurationReceived : ConfigurationResponse
  deriving Inhabited

/-- Model of `configurationReceivedPayload` of gql_client.go. -/
structure configurationReceivedPayload where
  data : configurationReceivedPayloadData
  deriving Inhabited

def decodeMessageAuthor : Json → MessageAuthor × Bool
  | Json.obj fs =>
    let i := strField fs "id"
    let u := strField fs "username"
    let o := strField fs "originId"
    let a := strField fs "avatarUrl"
    ({ id := i.1, username := u.1, originId := o.1, avatarUrl := a.1 },
     i.2 || u.2 || o.2 || a.2)
  | Json.null => (default, false)
  | _ => (default, true)

def decodeAttachment : Json → Attachment × Bool
  | Json.obj fs =>
    let i := strField fs "id"
    let o := strField fs "originId"
    let t := strField fs "type"
    let s := strField fs "sourceUrl"
    ({ id := i.1, originId := o.1, type := t.1, sourceUrl := s.1 },
     i.2 || o.2 || t.2 || s.2)
  | Json.null => (default, false)
  | _ => (default, true)

def decodeThread : Json → Thread × Bool
  | Json.obj fs =>
    let i := strField fs "id"
    let n := strField fs "name"
    let o := strField fs "originId"
    let g := strField fs "threadGroupId"
    let u := strField fs "iconUrl"
    let s := strField fs "serviceInstanceId"
    ({ id := i.1, name := n.1, originId := o.1, threadGroupId := g.1,
       iconUrl := u.1, serviceInstanceId := s.1 },
     i.2 || n.2 || o.2 || g.2 || u.2 || s.2)
  | Json.null => (default, false)
  | _ => (default, true)

def decodeMessage : Json → Message × Bool
  | Json.obj fs =>
    let i := strField fs "string"
    let o := strField fs "originId"
    let a := structField decodeMessageAuthor default fs "author"
    let t := structField decodeThread default fs "thread"
    let b := strField fs "body"
    let g := strField fs "threadGroupId"
    let att := listField decodeAttachment fs "attachments"
    ({ id := i.1, originId := o.1, author := a.1, thread := t.1, body := b.1,
       threadGroupId := g.1, attachments := att.1 },
     i.2 || o.2 || a.2 || t.2 || b.2 || g.2 || att.2)
  | Json.null => (default, false)
  | _ => (default, true)

def decodeMessageReceived : Json → MessageReceived × Bool
  | Json.obj fs =>
    let m := structField decodeMessage default fs "message"
    let t := strField fs "targetThreadId"
    ({ message := m.1, targetThreadId := t.1 }, m.2 || t.2)
  | Json.null => (default, false)
  | _ => (default, true)

def decodeSearchRequest : Json → SearchRequest × Bool
  | Json.obj fs =>
    let q := strField fs "query"
    ({ query := q.1 }, q.2)
  | Json.null => (default, false)
  | _ => (default, true)

def decodeConfigurationResponse : Json → ConfigurationResponse × Bool
  | Json.obj fs =>
    let v := listField decodeString fs "fieldValues"
    ({ fieldValues := v.1 }, v.2)
  | Json.null => (default, false)
  | _ => (default, true)

def decodeMessageReceivedPayloadData : Json → messageReceivedPayloadData × Bool
  | Json.obj fs =>
    let m := structField decodeMessageReceived default fs "messageReceived"
    ({ messageReceived := m.1 }, m.2)
  | Json.null => (default, false)
  | _ => (default, true)

def decodeMessageReceivedPayload : Json → messageReceivedPayload × Bool
  | Json.obj fs =>
    let d := structField decodeMessageReceivedPayloadData default fs "data"
    ({ data := d.1 }, d.2)
  | Json.null => (default, false)
  | _ => (default, true)

def decodeSearchRequestPayloadData : Json → searchRequestPayloadData × Bool
  | Json.obj fs =>
    let s := structField decodeSearchRequest default fs "subscribeToSearchRequests"
    ({ subscribeToSearchRequests := s.1 }, s.2)
  | Json.null => (default, false)
  | _ => (default, true)

def decodeSearchRequestPayload : Json → searchRequestPayload × Bool
  | Json.obj fs =>
    let d := structField decodeSearchRequestPayloadData default fs "data"
    ({ data := d.1 }, d.2)
  | Json.null => (default, false)
  | _ => (default, true)

def decodeConfigurationReceivedPayloadData :
    Json → configurationReceivedPayloadData × Bool
  | Json.obj fs =>
    let c := structField decodeConfigurationResponse default fs "configurationReceived"
    ({ configurationReceived := c.1 }, c.2)
  | Json.null => (default, false)
  | _ => (default, true)

def decodeConfigurationReceivedPayload : Json → configurationReceivedPayload × Bool
  | Json.obj fs =>
    let d := structField decodeConfigurationReceivedPayloadData default fs "data"
    ({ data := d.1 }, d.2)
  | Json.null => (default, false)
  | _ => (default, true)

def decodeErrorLocation : Json → ErrorLocation × Bool
  | Json.obj fs =>
    let l := intField fs "line"
    let c := intField fs "column"
    ({ line := l.1, column := c.1 }, l.2 || c.2)
  | Json.null => (default, false)
  | _ => (default, true)

/-- Unmarshal of one `*ErrorLocation` slice element: JSON `null` yields a nil
pointer. -/
def decodeErrorLocationPtr : Json → Option ErrorLocation × Bool
  | Json.null => (none, false)
  | j =>
    let r := decodeErrorLocation j
    (some r.1, r.2)

def decodeErrorMessage : Json → ErrorMessage × Bool
  | Json.obj fs =>
    let m := strField fs "message"
    let l := listField decodeErrorLocationPtr fs "locations"
    ({ message := m.1, locations := l.1 }, m.2 || l.2)
  | Json.null => (default, false)
  | _ => (default, true)

/-- Unmarshal of one `*ErrorMessage` slice element. -/
def decodeErrorMessagePtr : Json → Option ErrorMessage × Bool
  | Json.null => (none, false)
  | j =>
    let r := decodeErrorMessage j
    (some r.1, r.2)

/-- Model of `PayloadMessage` of gql_client.go; `Variables` is
`map[string]interface{}`, whose Go zero value is a nil map (`none` here). -/
structure PayloadMessage where
  query : String
  Variables : Option (List (String × Json))
  accessToken : String
  deriving Inhabited

/-- Model of `OperationMessage` of gql_client.go (fields in source order: `Payload`,
`ID`, `Type`; `ID` has the `omitempty` json option). -/
structure OperationMessage where
  payload : PayloadMessage
  id : String
  type : String
  deriving Inhabited

/-- Model of `IncomingPayload` of gql_client.go; `Payload` is a `*json.RawMessage`
holding the raw, not-yet-decoded bytes of the `payload` field, nil (`none`)
when the field is absent or `null`. -/
structure IncomingPayload where
  payload : Option Json
  type : String
  id : String
  deriving Inhabited

def connectionInitMsg : String := "connection_init"

def startMsg : String := "start"

def sendMessageMutation : String :=
  "mutation sendMessage($body: String!, $originId: String!, $originThreadId: String!, $username: String!, $authorOriginId: String!, $authorAvatarUrl: String!, $attachments: [AttachmentInput!]!) \x7b sendMessage( input: \x7b body: $body, originId: $originId, originThreadId: $originThreadId, author: \x7b username: $username, originId: $authorOriginId, avatarUrl: $authorAvatarUrl \x7d, attachments: $attachments \x7d ) \x7b id \x7d \x7d"

def messageReceivedSubscription : String :=
  "subscription \x7b messageReceived \x7b message \x7b body id originId attachments \x7b type sourceUrl originId id \x7d thread \x7b id originId name \x7d threadGroupId author \x7b username originId avatarUrl \x7d \x7d targetThreadId \x7d \x7d"

def setSearchResultMutation : String :=
  "mutation setSearchResponse($q: String!, $res: [ThreadSearchResultInput!]!) \x7b setSearchResponse(forQuery:$q, threads:$res) \x7b threads \x7b originId name iconUrl \x7d forQuery \x7d \x7d"

def searchRequestSubscription : String :=
  "subscription \x7b subscribeToSearchRequests \x7b query \x7d \x7d"

def requestConfigurationRequest : String :=
  "subscription confRequest($fields: [ConfigurationField!]!)\x7b configurationReceived(configuration:\x7bfields: $fields\x7d) \x7b fieldValues \x7d \x7d"

def setInstanceStatusMutation : String :=
  "mutation \x7b setInstanceStatus(status:INITIALIZED) \x7b status name \x7d \x7d"

def encodeAttachmentInput (a : AttachmentInput) : Json :=
  Json.obj [("originId", Json.str a.originId), ("type", Json.str a.type),
            ("sourceUrl", Json.str a.sourceUrl)]

def encodeSearchThreadInput (t : SearchThreadInput) : Json :=
  Json.obj [("originId", Json.str t.originId), ("name", Json.str t.name),
            ("iconUrl", Json.str t.iconUrl)]

def encodeConfigurationField (f : ConfigurationField) : Json :=
  Json.obj [("type", Json.str f.type), ("defaultValue", Json.str f.defaultValue),
            ("optional", Json.bool f.optional), ("hint", Json.str f.hint),
            ("mask", Json.bool f.mask)]

/-- Model of `json.Marshal` of a `PayloadMessage`: all three fields are emitted (no
`omitempty`); a nil `Variables` map marshals as `null`. -/
def encodePayloadMessage (p : PayloadMessage) : Json :=
  Json.obj [("query", Json.str p.query),
            ("variables",
              match p.Variables with
              | none => Json.null
              | some vs => Json.obj vs),
            ("accessToken", Json.str p.accessToken)]

/-- Model of `json.Marshal` of an `OperationMessage`.  The `id` field is dropped when
empty (`omitempty`); the `payload` field is always emitted because Go's
`omitempty` never applies to a struct-typed field. -/
def encodeOperationMessage (m : OperationMessage) : Json :=
  Json.obj ([("payload", encodePayloadMessage m.payload)] ++
            (if m.id = "" then [] else [("id", Json.str m.id)]) ++
            [("type", Json.str m.type)])

/-- Unmarshal of a `*json.RawMessage` struct field: absent or `null` leaves
the pointer nil, anything else captures the raw value undecoded. -/
def rawField (fields : List (String × Json)) (key : String) : Option Json × Bool :=
  match jLookup fields key with
  | none => (none, false)
  | some Json.null => (none, false)
  | some v => (some v, false)

/-- Unmarshal of wire bytes into an `IncomingPayload` envelope (the first
phase of the two-phase decode: `payload` stays opaque). -/
def decodeIncomingPayload : Json → IncomingPayload × Bool
  | Json.obj fs =>
    let p := rawField fs "payload"
    let t := strField fs "type"
    let i := strField fs "id"
    ({ payload := p.1, type := t.1, id := i.1 }, p.2 || t.2 || i.2)
  | Json.null => (default, false)
  | _ => (default, true)

/-- One nibble as a lowercase hex character, as `fmt.Sprintf("%x", ...)`
prints it. -/
def hexDigit (n : Nat) : Char :=
  if n < 10 then Char.ofNat (48 + n) else Char.ofNat (87 + n)

/-- One byte as two hex characters (leading zero preserved). -/
def byteToHex (b : Nat) : List Char :=
  [hexDigit (b / 16), hexDigit (b % 16)]

/-- Model of `GenerateID` of gql_client.go: reads 4 random bytes (here: the argument)
and formats them with `fmt.Sprintf("%x", b)`. -/
def GenerateID (randomBytes : Fin 4 → Fin 256) : String :=
  String.mk (byteToHex (randomBytes 0).val ++ byteToHex (randomBytes 1).val ++
             byteToHex (randomBytes 2).val ++ byteToHex (randomBytes 3).val)

/-- The three typed delivery channels owned by `ChatPlugClient`. -/
inductive ChanId
  | messages
  | configurationRecv
  | searchRequests

/-- A value sent on a delivery channel. -/
inductive SentValue
  | msg (m : MessageReceived)
  | cfg (c : ConfigurationResponse)
  | search (r : SearchRequest)

/-- Observable effects of the two read loops and of `Close`.  `closeChan`
would be the closing of one of the three delivery channels; it is included so
that its absence from every trace is expressible. -/
inductive Effect
  | logged (s : String)
  | loggedDecodeError
  | send (c : ChanId) (v : SentValue)
  | sendPacket (p : IncomingPayload)
  | sendErr (e : String)
  | printed (s : String)
  | panicked
  | closedPacketChans
  | closeChan (c : ChanId)
  | closeTransport

/-- Sequencing of two effectful statement blocks: a panic in the first aborts
the second (the `Bool` is the panicked flag). -/
def seqB (a b : List Effect × Bool) : List Effect × Bool :=
  if a.2 then a else (a.1 ++ b.1, b.2)

/-- A `graphql.Request` of the machinebox client: query text, variables added
by `req.Var`, headers added by `req.Header.Add`. -/
structure GqlRequest where
  q : String
  vars : List (String × Json)
  header : List (String × String)

def graphqlNewRequest (q : String) : GqlRequest :=
  { q := q, vars := [], header := [] }

/-- Model of `req.Var(key, value)` with the value already in its JSON form. -/
def reqVar (req : GqlRequest) (key : String) (value : Json) : GqlRequest :=
  { req with vars := req.vars ++ [(key, value)] }

/-- Outbound actions of the request/response path and of `Subscribe`. -/
inductive WireAction
  | wrote (m : OperationMessage)
  | httpRequest (r : GqlRequest)
  | printedOut (s : String)
  | printedErr (e : String)

/-- Model of `GQLClient.Request`: adds the `Authentication` header, runs the request
once, and returns `(respData, nil)` or `(nil, err)`.  The transport outcome
is the `outcome` argument. -/
def Request (accessToken : String) (req : GqlRequest)
    (outcome : Except String (List (String × Json))) :
    List WireAction × (Option (List (String × Json)) × Option String) :=
  let req := { req with header := req.header ++ [("Authentication", accessToken)] }
  ([WireAction.httpRequest req],
   match outcome with
   | Except.error e => (none, some e)
   | Except.ok respData => (some respData, none))

/-- Model of `GQLClient.WriteOperationPacket`: one `wsConn.WriteJSON` call, its error
discarded. -/
def WriteOperationPacket (packet : OperationMessage) : List WireAction :=
  [WireAction.wrote packet]

/-- Model of `GQLClient.Subscribe`: generates a fresh ID, writes one `start` operation
message carrying the query and variables, and returns the ID.  It performs no
read. -/
def Subscribe (randomBytes : Fin 4 → Fin 256) (query : String)
    (vars : List (String × Json)) : List WireAction × String :=
  let subID := GenerateID randomBytes
  (WriteOperationPacket
     { payload := { query := query, Variables := some vars, accessToken := "" },
       id := subID, type := startMsg },
   subID)

/-- Outcome of one blocking `wsConn.ReadJSON` call. -/
inductive ReadResult
  | ok (p : IncomingPayload)
  | transportError (e : String)

/-- How a call to `GQLClient.ReadIncomingPayload` ends: it either returns a
message together with the (then necessarily nil) error, or panics. -/
inductive ReadOutcome
  | returns (msg : IncomingPayload) (err : Option String)
  | panics (e : String)

/-- Model of `GQLClient.ReadIncomingPayload`: on a read error it calls `panic(err)`,
so whenever it returns, the returned error is nil. -/
def ReadIncomingPayload : ReadResult → ReadOutcome
  | ReadResult.ok p => ReadOutcome.returns p none
  | ReadResult.transportError e => ReadOutcome.panics e

/-- The `msg.Type == "error"` branch of the read loop in `GQLClient.Connect`:
it dereferences `*msg.Payload`, unmarshals into `[]*ErrorMessage` without
checking the error, and prints `errs[0].Message` — panicking when the payload
pointer is nil, when the slice is empty or nil, or when its first element is
a nil pointer. -/
def errorFrameEffects (msg : IncomingPayload) : List Effect × Bool :=
  match msg.payload with
  | none => ([Effect.panicked], true)
  | some (Json.arr xs) =>
    let errs := decodeList decodeErrorMessagePtr xs
    match errs.1 with
    | [] => ([Effect.panicked], true)
    | some e0 :: _ => ([Effect.printed e0.message], false)
    | none :: _ => ([Effect.panicked], true)
  | some _ => ([Effect.panicked], true)

/-- One iteration of the read loop spawned by `GQLClient.Connect`: read,
forward a non-nil read error on `errChan` (unreachable, since
`ReadIncomingPayload` panics instead of returning an error), print, inspect
`error` frames, and forward the message on the packets channel. -/
def gqlLoopIter (r : ReadResult) : List Effect × Bool :=
  match ReadIncomingPayload r with
  | ReadOutcome.panics _ => ([Effect.panicked], true)
  | ReadOutcome.returns msg err =>
    let fwd : List Effect × Bool :=
      match err with
      | some e => ([Effect.sendErr e], false)
      | none => ([], false)
    seqB fwd
      (seqB ([Effect.printed "got smth"], false)
        (seqB (if msg.type = "error" then errorFrameEffects msg else ([], false))
          ([Effect.printed msg.id, Effect.sendPacket msg], false)))

/-- One iteration of the `GQLClient.Connect` read loop together with its
deferred `close(channel); close(errChan)`, which run exactly when the
goroutine panics (the loop body otherwise never leaves the `for`). -/
def gqlLoopStep (r : ReadResult) : List Effect :=
  let it := gqlLoopIter r
  if it.2 then it.1 ++ [Effect.closedPacketChans] else it.1

/-- The registration state of `ChatPlugClient` (client.go): the stored
subscription ID of each of the three kinds.  The `GQLClient` handle and the
three channels are represented by effects on `ChanId`. -/
structure ChatPlugClient where
  msgSubID : String
  cfgSubID : String
  searchSubID : String
  deriving Inhabited

/-- Model of `NewChatPlugClient`: all three stored subscription IDs start out as the
empty string. -/
def NewChatPlugClient : ChatPlugClient :=
  { msgSubID := "", cfgSubID := "", searchSubID := "" }

/-- Model of `ChatPlugClient.Close`: closes the websocket transport (error ignored).
No other effect: in particular no delivery channel is closed. -/
def Close : List Effect :=
  [Effect.closeTransport]

/-- Model of `ChatPlugClient.SendMessage`: builds the `sendMessage` mutation request
with the six scalar variables and the attachments, issues it once, and—when
the request fails—prints the error and still returns normally (no error value
reaches the caller). -/
def SendMessage (accessToken : String) (body : String) (originId : String)
    (originThreadId : String) (username : String) (authorOriginId : String)
    (authorAvatarUrl : String) (attachments : List AttachmentInput)
    (outcome : Except String (List (String × Json))) : List WireAction :=
  let req := graphqlNewRequest sendMessageMutation
  let req := reqVar req "body" (Json.str body)
  let req := reqVar req "originId" (Json.str originId)
  let req := reqVar req "originThreadId" (Json.str originThreadId)
  let req := reqVar req "username" (Json.str username)
  let req := reqVar req "authorOriginId" (Json.str authorOriginId)
  let req := reqVar req "authorAvatarUrl" (Json.str authorAvatarUrl)
  let req := reqVar req "attachments" (Json.arr (attachments.map encodeAttachmentInput))
  let r := Request accessToken req outcome
  [WireAction.printedOut "Sending sendMessage mutation to the core"] ++ r.1 ++
    (match r.2.2 with
     | some e => [WireAction.printedOut "error occured", WireAction.printedErr e]
     | none => [])

/-- Model of `ChatPlugClient.SetSearchResponse`: same fire-and-forget pattern as
`SendMessage`. -/
def SetSearchResponse (accessToken : String) (forQuery : String)
    (threads : List SearchThreadInput)
    (outcome : Except String (List (String × Json))) : List WireAction :=
  let req := graphqlNewRequest setSearchResultMutation
  let req := reqVar req "q" (Json.str forQuery)
  let req := reqVar req "res" (Json.arr (threads.map encodeSearchThreadInput))
  let r := Request accessToken req outcome
  [WireAction.printedOut "Sending sendMessage mutation to the core"] ++ r.1 ++
    (match r.2.2 with
     | some e => [WireAction.printedOut "error occured", WireAction.printedErr e]
     | none => [])

/-- Model of `ChatPlugClient.SubscribeToNewMessages`: registers the messages
subscription (empty, non-nil variables map) and stores its ID. -/
def SubscribeToNewMessages (cpc : ChatPlugClient) (randomBytes : Fin 4 → Fin 256) :
    ChatPlugClient × List WireAction :=
  let r := Subscribe randomBytes messageReceivedSubscription []
  ({ cpc with msgSubID := r.2 }, r.1)

/-- Model of `ChatPlugClient.SubscribeToSearchRequests`. -/
def SubscribeToSearchRequests (cpc : ChatPlugClient) (randomBytes : Fin 4 → Fin 256) :
    ChatPlugClient × List WireAction :=
  let r := Subscribe randomBytes searchRequestSubscription []
  ({ cpc with searchSubID := r.2 }, r.1)

/-- Model of `ChatPlugClient.SubscribeToConfigResponses`: passes the configuration
schema as the subscription's `fields` variable. -/
def SubscribeToConfigResponses (cpc : ChatPlugClient) (randomBytes : Fin 4 → Fin 256)
    (configurationSchema : List ConfigurationField) :
    ChatPlugClient × List WireAction :=
  let vars := [("fields", Json.arr (configurationSchema.map encodeConfigurationField))]
  let r := Subscribe randomBytes requestConfigurationRequest vars
  ({ cpc with cfgSubID := r.2 }, r.1)

/-- The `packet.ID == cpc.msgSubID` branch of the read loop in
`ChatPlugClient.Connect`: unmarshals the payload (a nil payload pointer
panics), prints a decode error if any, and in every non-panicking case sends
the (possibly partially) decoded body on `MessagesChan` — the send is not
guarded by the decode error. -/
def msgBranch (cpc : ChatPlugClient) (packet : IncomingPayload) : List Effect × Bool :=
  if packet.id = cpc.msgSubID then
    match packet.payload with
    | none => ([Effect.panicked], true)
    | some p =>
      let d := decodeMessageReceivedPayload p
      ((if d.2 then [Effect.loggedDecodeError] else []) ++
        [Effect.send ChanId.messages (SentValue.msg d.1.data.messageReceived)],
       false)
  else ([], false)

/-- The `packet.ID == cpc.cfgSubID` branch of the read loop. -/
def cfgBranch (cpc : ChatPlugClient) (packet : IncomingPayload) : List Effect × Bool :=
  if packet.id = cpc.cfgSubID then
    match packet.payload with
    | none => ([Effect.panicked], true)
    | some p =>
      let d := decodeConfigurationReceivedPayload p
      ((if d.2 then [Effect.loggedDecodeError] else []) ++
        [Effect.send ChanId.configurationRecv (SentValue.cfg d.1.data.configurationReceived)],
       false)
  else ([], false)

/-- The `packet.ID == cpc.searchSubID` branch of the read loop. -/
def searchBranch (cpc : ChatPlugClient) (packet : IncomingPayload) : List Effect × Bool :=
  if packet.id = cpc.searchSubID then
    match packet.payload with
    | none => ([Effect.panicked], true)
    | some p =>
      let d := decodeSearchRequestPayload p
      ((if d.2 then [Effect.loggedDecodeError] else []) ++
        [Effect.send ChanId.searchRequests (SentValue.search d.1.data.subscribeToSearchRequests)],
       false)
  else ([], false)

/-- The body of the read loop in `ChatPlugClient.Connect` for one packet:
three `log.Println` calls, then — only for `data` frames — the three
independent (not mutually exclusive) ID checks in source order. -/
def processPacketB (cpc : ChatPlugClient) (packet : IncomingPayload) :
    List Effect × Bool :=
  let logs := [Effect.logged packet.type, Effect.logged packet.id,
               Effect.logged cpc.cfgSubID]
  if packet.type = "data" then
    let r := seqB (seqB (msgBranch cpc packet) (cfgBranch cpc packet))
               (searchBranch cpc packet)
    (logs ++ r.1, r.2)
  else (logs, false)

/-- The effects of processing one packet. -/
def processPacket (cpc : ChatPlugClient) (packet : IncomingPayload) : List Effect :=
  (processPacketB cpc packet).1

/-- Model of `for packet := range packets { ... }`: the packets delivered on the inner
channel are processed in order; a panic aborts the goroutine, dropping the
rest; when the list ends (inner channel closed) the loop returns without
closing anything. -/
def clientLoopEffects (cpc : ChatPlugClient) : List IncomingPayload → List Effect
  | [] => []
  | p :: ps =>
    let r := processPacketB cpc p
    if r.2 then r.1 else r.1 ++ clientLoopEffects cpc ps

/-- Membership in a `seqB` sequence comes from one of the two blocks. -/
theorem mem_seqB {e : Effect} {a b : List Effect × Bool}
    (h : e ∈ (seqB a b).1) : e ∈ a.1 ∨ e ∈ b.1 := by
  unfold seqB at h
  split at h
  · exact Or.inl h
  · exact List.mem_append.1 h

/-- Sequencing after a non-panicking block concatenates. -/
theorem seqB_of_not_panicked {a b : List Effect × Bool} (h : a.2 = false) :
    seqB a b = (a.1 ++ b.1, b.2) := by
  unfold seqB
  rw [h]
  simp

/-- Characters of the lowercase hexadecimal alphabet `0-9a-f`. -/
def isLowerHexDigit (c : Char) : Bool :=
  (decide ('0' ≤ c) && decide (c ≤ '9')) || (decide ('a' ≤ c) && decide (c ≤ 'f'))

theorem hexDigit_mem_fin : ∀ n : Fin 16, isLowerHexDigit (hexDigit n.val) = true := by
  decide

theorem hexDigit_mem (n : Nat) (h : n < 16) : isLowerHexDigit (hexDigit n) = true :=
  hexDigit_mem_fin ⟨n, h⟩

/-- C9: `GenerateID` always returns a string of exactly 8 characters, each a
lowercase hexadecimal digit `0-9a-f` (two hex digits per random byte, leading
zeros preserved by `%x`). -/
theorem C9_generateID_format (randomBytes : Fin 4 → Fin 256) :
    (GenerateID randomBytes).length = 8 ∧
      ∀ c ∈ (GenerateID randomBytes).data, isLowerHexDigit c = true := by
  constructor
  · rfl
  · intro c hc
    have h0 := (randomBytes 0).isLt
    have h1 := (randomBytes 1).isLt
    have h2 := (randomBytes 2).isLt
    have h3 := (randomBytes 3).isLt
    simp [GenerateID, byteToHex, List.mem_cons] at hc
    rcases hc with rfl | rfl | rfl | rfl | rfl | rfl | rfl | rfl
    · exact hexDigit_mem _ (by omega)
    · exact hexDigit_mem _ (by omega)
    · exact hexDigit_mem _ (by omega)
    · exact hexDigit_mem _ (by omega)
    · exact hexDigit_mem _ (by omega)
    · exact hexDigit_mem _ (by omega)
    · exact hexDigit_mem _ (by omega)
    · exact hexDigit_mem _ (by omega)

/-- C5: marshalling any `OperationMessage` and parsing the bytes back as an
`IncomingPayload` envelope round-trips `type` and `id` exactly (an `id` that
was omitted as empty reads back as the zero value `""`), while the payload
survives as the opaque, un-decoded JSON of the original payload. -/
theorem C5_envelope_roundtrip (m : OperationMessage) :
    (decodeIncomingPayload (encodeOperationMessage m)).1.type = m.type ∧
    (decodeIncomingPayload (encodeOperationMessage m)).1.id = m.id ∧
    (decodeIncomingPayload (encodeOperationMessage m)).1.payload =
      some (encodePayloadMessage m.payload) ∧
    (decodeIncomingPayload (encodeOperationMessage m)).2 = false := by
  by_cases h : m.id = ""
  · simp [encodeOperationMessage, decodeIncomingPayload, rawField, strField,
      jLookup, h, encodePayloadMessage]
  · simp [encodeOperationMessage, decodeIncomingPayload, rawField, strField,
      jLookup, h, encodePayloadMessage]

/-- C6: `Subscribe` writes exactly one `start` operation message whose id is
the freshly generated subscription ID and whose payload carries the query and
variables, and returns that same ID; the definition consumes no inbound
frame. -/
theorem C6_subscribe_start (randomBytes : Fin 4 → Fin 256) (query : String)
    (vars : List (String × Json)) :
    (Subscribe randomBytes query vars).1 =
      [WireAction.wrote
        { payload := { query := query, Variables := some vars, accessToken := "" },
          id := GenerateID randomBytes, type := startMsg }] ∧
    (Subscribe randomBytes query vars).2 = GenerateID randomBytes :=
  ⟨rfl, rfl⟩

def isHttpRequest : WireAction → Bool
  | WireAction.httpRequest _ => true
  | _ => false

def isPrintAction : WireAction → Bool
  | WireAction.printedOut _ => true
  | WireAction.printedErr _ => true
  | _ => false

/-- C7: `SendMessage` issues exactly one `sendMessage` mutation request
carrying the six scalar variables and the attachment list (plus the
`Authentication` header), and whatever the outcome of the request, every
other action is a print: the call returns normally to the caller in both
cases. -/
theorem C7_sendMessage_fire_and_forget (accessToken : String) (body : String)
    (originId : String) (originThreadId : String) (username : String)
    (authorOriginId : String) (authorAvatarUrl : String)
    (attachments : List AttachmentInput)
    (outcome : Except String (List (String × Json))) :
    (SendMessage accessToken body originId originThreadId username
        authorOriginId authorAvatarUrl attachments outcome).filter isHttpRequest =
      [WireAction.httpRequest
        { q := sendMessageMutation,
          vars := [("body", Json.str body), ("originId", Json.str originId),
                   ("originThreadId", Json.str originThreadId),
                   ("username", Json.str username),
                   ("authorOriginId", Json.str authorOriginId),
                   ("authorAvatarUrl", Json.str authorAvatarUrl),
                   ("attachments", Json.arr (attachments.map encodeAttachmentInput))],
          header := [("Authentication", accessToken)] }] ∧
    ∀ a ∈ SendMessage accessToken body originId originThreadId username
        authorOriginId authorAvatarUrl attachments outcome,
      isHttpRequest a = true ∨ isPrintAction a = true := by
  cases outcome with
  | error e =>
    refine ⟨rfl, ?_⟩
    intro a ha
    simp [SendMessage, Request, graphqlNewRequest, reqVar] at ha
    rcases ha with rfl | rfl | rfl | rfl <;> simp [isHttpRequest, isPrintAction]
  | ok respData =>
    refine ⟨rfl, ?_⟩
    intro a ha
    simp [SendMessage, Request, graphqlNewRequest, reqVar] at ha
    rcases ha with rfl | rfl <;> simp [isHttpRequest, isPrintAction]

/-- C4 (code bug): on a transport read error the loop does not forward the
error on `errChan` and does not continue; `ReadIncomingPayload` panics, the
goroutine aborts and the deferred closes of the inner channels run.  The
`err != nil` forwarding branch in `GQLClient.Connect` is unreachable. -/
theorem C4_read_error_panics :
    gqlLoopStep (ReadResult.transportError "use of closed network connection") =
      [Effect.panicked, Effect.closedPacketChans] ∧
    Effect.sendErr "use of closed network connection" ∉
      gqlLoopStep (ReadResult.transportError "use of closed network connection") := by
  refine ⟨rfl, ?_⟩
  simp [gqlLoopStep, gqlLoopIter, ReadIncomingPayload]

theorem decodeList_strings (vals : List String) :
    decodeList decodeString (vals.map Json.str) = (vals, false) := by
  induction vals with
  | nil => rfl
  | cons v vs ih => simp [decodeList, decodeString, ih]

theorem decodeMessageReceivedPayload_wrap (mrFs : List (String × Json)) :
    (decodeMessageReceivedPayload
        (Json.obj [("data",
          Json.obj [("messageReceived", Json.obj mrFs)])])).1.data.messageReceived =
      (decodeMessageReceived (Json.obj mrFs)).1 := by
  simp [decodeMessageReceivedPayload, decodeMessageReceivedPayloadData, structField,
    jLookup]

theorem decodeMessageReceived_targetThreadId (mrFs : List (String × Json)) (t : String)
    (h : jLookup mrFs "targetThreadId" = some (Json.str t)) :
    (decodeMessageReceived (Json.obj mrFs)).1.targetThreadId = t := by
  simp [decodeMessageReceived, strField, h]

theorem decodeConfigurationReceivedPayload_wrap (cfgFs : List (String × Json)) :
    (decodeConfigurationReceivedPayload
        (Json.obj [("data",
          Json.obj [("configurationReceived", Json.obj cfgFs)])])).1.data.configurationReceived =
      (decodeConfigurationResponse (Json.obj cfgFs)).1 := by
  simp [decodeConfigurationReceivedPayload, decodeConfigurationReceivedPayloadData,
    structField, jLookup]

theorem decodeConfigurationResponse_fieldValues (cfgFs : List (String × Json))
    (vals : List String)
    (h : jLookup cfgFs "fieldValues" = some (Json.arr (vals.map Json.str))) :
    (decodeConfigurationResponse (Json.obj cfgFs)).1.fieldValues = vals := by
  simp [decodeConfigurationResponse, listField, h, decodeList_strings]

theorem decodeSearchRequestPayload_wrap (srFs : List (String × Json)) :
    (decodeSearchRequestPayload
        (Json.obj [("data",
          Json.obj [("subscribeToSearchRequests", Json.obj srFs)])])).1.data.subscribeToSearchRequests =
      (decodeSearchRequest (Json.obj srFs)).1 := by
  simp [decodeSearchRequestPayload, decodeSearchRequestPayloadData, structField,
    jLookup]

theorem decodeSearchRequest_query (srFs : List (String × Json)) (q : String)
    (h : jLookup srFs "query" = some (Json.str q)) :
    (decodeSearchRequest (Json.obj srFs)).1.query = q := by
  simp [decodeSearchRequest, strField, h]

theorem msgBranch_not_panicked (cpc : ChatPlugClient) (pk : IncomingPayload) (pl : Json)
    (hpl : pk.payload = some pl) : (msgBranch cpc pk).2 = false := by
  unfold msgBranch
  split <;> simp [hpl]

theorem cfgBranch_not_panicked (cpc : ChatPlugClient) (pk : IncomingPayload) (pl : Json)
    (hpl : pk.payload = some pl) : (cfgBranch cpc pk).2 = false := by
  unfold cfgBranch
  split <;> simp [hpl]

theorem searchBranch_not_panicked (cpc : ChatPlugClient) (pk : IncomingPayload) (pl : Json)
    (hpl : pk.payload = some pl) : (searchBranch cpc pk).2 = false := by
  unfold searchBranch
  split <;> simp [hpl]

/-- For a `data` frame whose payload pointer is non-nil, the loop body is the
three logs followed by the effects of the three independent ID branches. -/
theorem processPacket_data_some (cpc : ChatPlugClient) (pk : IncomingPayload) (pl : Json)
    (hty : pk.type = "data") (hpl : pk.payload = some pl) :
    processPacket cpc pk =
      [Effect.logged pk.type, Effect.logged pk.id, Effect.logged cpc.cfgSubID] ++
        ((msgBranch cpc pk).1 ++ ((cfgBranch cpc pk).1 ++ (searchBranch cpc pk).1)) := by
  have hm := msgBranch_not_panicked cpc pk pl hpl
  have hc := cfgBranch_not_panicked cpc pk pl hpl
  unfold processPacket processPacketB
  rw [if_pos hty, seqB_of_not_panicked hm]
  simp [seqB, hc]

theorem msgBranch_send (cpc : ChatPlugClient) (pk : IncomingPayload) (pl : Json)
    (hid : pk.id = cpc.msgSubID) (hpl : pk.payload = some pl) :
    Effect.send ChanId.messages
        (SentValue.msg (decodeMessageReceivedPayload pl).1.data.messageReceived) ∈
      (msgBranch cpc pk).1 := by
  unfold msgBranch
  rw [if_pos hid, hpl]
  simp

theorem cfgBranch_send (cpc : ChatPlugClient) (pk : IncomingPayload) (pl : Json)
    (hid : pk.id = cpc.cfgSubID) (hpl : pk.payload = some pl) :
    Effect.send ChanId.configurationRecv
        (SentValue.cfg (decodeConfigurationReceivedPayload pl).1.data.configurationReceived) ∈
      (cfgBranch cpc pk).1 := by
  unfold cfgBranch
  rw [if_pos hid, hpl]
  simp

theorem searchBranch_send (cpc : ChatPlugClient) (pk : IncomingPayload) (pl : Json)
    (hid : pk.id = cpc.searchSubID) (hpl : pk.payload = some pl) :
    Effect.send ChanId.searchRequests
        (SentValue.search (decodeSearchRequestPayload pl).1.data.subscribeToSearchRequests) ∈
      (searchBranch cpc pk).1 := by
  unfold searchBranch
  rw [if_pos hid, hpl]
  simp

/-- C1: with the messages subscription registered under `cpc.msgSubID`, a
`data` frame with that id whose payload is a well-formed `messageReceived`
body is delivered on the messages channel with `targetThreadId` equal to the
frame's `data.messageReceived.targetThreadId`; analogously for the
configuration kind (`fieldValues`) and the search-request kind (`query`)
onto their channels. -/
theorem C1_matched_data_delivery (cpc : ChatPlugClient)
    (pk1 pk2 pk3 : IncomingPayload)
    (mrFs cfgFs srFs : List (String × Json)) (t : String) (vals : List String)
    (q : String)
    (h1ty : pk1.type = "data") (h1id : pk1.id = cpc.msgSubID)
    (h1pl : pk1.payload =
      some (Json.obj [("data", Json.obj [("messageReceived", Json.obj mrFs)])]))
    (h1t : jLookup mrFs "targetThreadId" = some (Json.str t))
    (h2ty : pk2.type = "data") (h2id : pk2.id = cpc.cfgSubID)
    (h2pl : pk2.payload =
      some (Json.obj [("data", Json.obj [("configurationReceived", Json.obj cfgFs)])]))
    (h2v : jLookup cfgFs "fieldValues" = some (Json.arr (vals.map Json.str)))
    (h3ty : pk3.type = "data") (h3id : pk3.id = cpc.searchSubID)
    (h3pl : pk3.payload =
      some (Json.obj [("data", Json.obj [("subscribeToSearchRequests", Json.obj srFs)])]))
    (h3q : jLookup srFs "query" = some (Json.str q)) :
    ((decodeMessageReceived (Json.obj mrFs)).1.targetThreadId = t ∧
     Effect.send ChanId.messages
         (SentValue.msg (decodeMessageReceived (Json.obj mrFs)).1) ∈
       processPacket cpc pk1) ∧
    ((decodeConfigurationResponse (Json.obj cfgFs)).1.fieldValues = vals ∧
     Effect.send ChanId.configurationRecv
         (SentValue.cfg (decodeConfigurationResponse (Json.obj cfgFs)).1) ∈
       processPacket cpc pk2) ∧
    ((decodeSearchRequest (Json.obj srFs)).1.query = q ∧
     Effect.send ChanId.searchRequests
         (SentValue.search (decodeSearchRequest (Json.obj srFs)).1) ∈
       processPacket cpc pk3) := by
  refine ⟨⟨decodeMessageReceived_targetThreadId mrFs t h1t, ?_⟩,
          ⟨decodeConfigurationResponse_fieldValues cfgFs vals h2v, ?_⟩,
          ⟨decodeSearchRequest_query srFs q h3q, ?_⟩⟩
  · rw [processPacket_data_some cpc pk1 _ h1ty h1pl]
    have h := msgBranch_send cpc pk1 _ h1id h1pl
    rw [decodeMessageReceivedPayload_wrap] at h
    exact List.mem_append.2 (Or.inr (List.mem_append.2 (Or.inl h)))
  · rw [processPacket_data_some cpc pk2 _ h2ty h2pl]
    have h := cfgBranch_send cpc pk2 _ h2id h2pl
    rw [decodeConfigurationReceivedPayload_wrap] at h
    exact List.mem_append.2 (Or.inr (List.mem_append.2 (Or.inr
      (List.mem_append.2 (Or.inl h)))))
  · rw [processPacket_data_some cpc pk3 _ h3ty h3pl]
    have h := searchBranch_send cpc pk3 _ h3id h3pl
    rw [decodeSearchRequestPayload_wrap] at h
    exact List.mem_append.2 (Or.inr (List.mem_append.2 (Or.inr
      (List.mem_append.2 (Or.inr h)))))

def c1Client : ChatPlugClient :=
  { msgSubID := "abc1", cfgSubID := "cfg1", searchSubID := "sr1" }

def c1MrFields : List (String × Json) := [("targetThreadId", Json.str "t1")]

def c1CfgFields : List (String × Json) :=
  [("fieldValues", Json.arr [Json.str "v1", Json.str "v2"])]

def c1SrFields : List (String × Json) := [("query", Json.str "cats")]

def c1Pk1 : IncomingPayload :=
  { payload := some (Json.obj [("data", Json.obj [("messageReceived", Json.obj c1MrFields)])]),
    type := "data", id := "abc1" }

def c1Pk2 : IncomingPayload :=
  { payload := some (Json.obj [("data", Json.obj [("configurationReceived", Json.obj c1CfgFields)])]),
    type := "data", id := "cfg1" }

def c1Pk3 : IncomingPayload :=
  { payload := some (Json.obj [("data", Json.obj [("subscribeToSearchRequests", Json.obj c1SrFields)])]),
    type := "data", id := "sr1" }

/-- Witness for C1 at the spec's concrete example: registration `"abc1"`, a
frame whose body carries `targetThreadId "t1"`, and the analogous
configuration and search frames. -/
theorem C1_witness :
    ((decodeMessageReceived (Json.obj c1MrFields)).1.targetThreadId = "t1" ∧
     Effect.send ChanId.messages
         (SentValue.msg (decodeMessageReceived (Json.obj c1MrFields)).1) ∈
       processPacket c1Client c1Pk1) ∧
    ((decodeConfigurationResponse (Json.obj c1CfgFields)).1.fieldValues = ["v1", "v2"] ∧
     Effect.send ChanId.configurationRecv
         (SentValue.cfg (decodeConfigurationResponse (Json.obj c1CfgFields)).1) ∈
       processPacket c1Client c1Pk2) ∧
    ((decodeSearchRequest (Json.obj c1SrFields)).1.query = "cats" ∧
     Effect.send ChanId.searchRequests
         (SentValue.search (decodeSearchRequest (Json.obj c1SrFields)).1) ∈
       processPacket c1Client c1Pk3) :=
  C1_matched_data_delivery c1Client c1Pk1 c1Pk2 c1Pk3 c1MrFields c1CfgFields
    c1SrFields "t1" ["v1", "v2"] "cats" rfl rfl rfl rfl rfl rfl rfl rfl rfl rfl
    rfl rfl

/-- C3: a `data` frame whose id matches none of the three stored subscription
IDs produces only the three log lines: no send on any delivery channel, no
panic, and the loop goes on to process the following packets unchanged. -/
theorem C3_unmatched_frame_dropped (cpc : ChatPlugClient) (packet : IncomingPayload)
    (c : ChanId) (v : SentValue) (rest : List IncomingPayload)
    (hty : packet.type = "data")
    (h1 : packet.id ≠ cpc.msgSubID) (h2 : packet.id ≠ cpc.cfgSubID)
    (h3 : packet.id ≠ cpc.searchSubID) :
    processPacket cpc packet =
      [Effect.logged packet.type, Effect.logged packet.id,
       Effect.logged cpc.cfgSubID] ∧
    Effect.send c v ∉ processPacket cpc packet ∧
    Effect.panicked ∉ processPacket cpc packet ∧
    clientLoopEffects cpc (packet :: rest) =
      processPacket cpc packet ++ clientLoopEffects cpc rest := by
  have key : processPacketB cpc packet =
      ([Effect.logged packet.type, Effect.logged packet.id,
        Effect.logged cpc.cfgSubID], false) := by
    unfold processPacketB msgBranch cfgBranch searchBranch
    rw [if_pos hty, if_neg h1, if_neg h2, if_neg h3]
    rfl
  refine ⟨?_, ?_, ?_, ?_⟩
  · show (processPacketB cpc packet).1 = _
    rw [key]
  · show Effect.send c v ∉ (processPacketB cpc packet).1
    rw [key]
    simp
  · show Effect.panicked ∉ (processPacketB cpc packet).1
    rw [key]
    simp
  · show (let r := processPacketB cpc packet;
          if r.2 then r.1 else r.1 ++ clientLoopEffects cpc rest) = _
    rw [key]
    simp [processPacket, key]

def c3Client : ChatPlugClient :=
  { msgSubID := "m1", cfgSubID := "c1", searchSubID := "s1" }

def c3Frame : IncomingPayload :=
  { payload := some (Json.obj []), type := "data", id := "zzzz" }

def c3Follow : IncomingPayload :=
  { payload := some (Json.obj []), type := "data", id := "m1" }

/-- Witness for C3: a frame with unmatched id `"zzzz"` followed by a matching
frame. -/
theorem C3_witness :
    processPacket c3Client c3Frame =
      [Effect.logged c3Frame.type, Effect.logged c3Frame.id,
       Effect.logged c3Client.cfgSubID] ∧
    Effect.send ChanId.messages (SentValue.msg default) ∉
      processPacket c3Client c3Frame ∧
    Effect.panicked ∉ processPacket c3Client c3Frame ∧
    clientLoopEffects c3Client (c3Frame :: [c3Follow]) =
      processPacket c3Client c3Frame ++ clientLoopEffects c3Client [c3Follow] :=
  C3_unmatched_frame_dropped c3Client c3Frame ChanId.messages
    (SentValue.msg default) [c3Follow] rfl (by decide) (by decide) (by decide)

/-- C10: in a freshly constructed client all three stored subscription IDs
are `""` and the three ID checks are independent, so a `data` frame with id
`""` (arriving before any Subscribe call) is decoded three times and a value
is sent on each of the three channels. -/
theorem C10_empty_ids_deliver_all (packet : IncomingPayload) (pl : Json)
    (hty : packet.type = "data") (hid : packet.id = "")
    (hpl : packet.payload = some pl) :
    NewChatPlugClient.msgSubID = "" ∧ NewChatPlugClient.cfgSubID = "" ∧
    NewChatPlugClient.searchSubID = "" ∧
    Effect.send ChanId.messages
        (SentValue.msg (decodeMessageReceivedPayload pl).1.data.messageReceived) ∈
      processPacket NewChatPlugClient packet ∧
    Effect.send ChanId.configurationRecv
        (SentValue.cfg (decodeConfigurationReceivedPayload pl).1.data.configurationReceived) ∈
      processPacket NewChatPlugClient packet ∧
    Effect.send ChanId.searchRequests
        (SentValue.search (decodeSearchRequestPayload pl).1.data.subscribeToSearchRequests) ∈
      processPacket NewChatPlugClient packet := by
  have hid1 : packet.id = NewChatPlugClient.msgSubID := hid
  have hid2 : packet.id = NewChatPlugClient.cfgSubID := hid
  have hid3 : packet.id = NewChatPlugClient.searchSubID := hid
  refine ⟨rfl, rfl, rfl, ?_, ?_, ?_⟩
  · rw [processPacket_data_some _ packet _ hty hpl]
    exact List.mem_append.2 (Or.inr (List.mem_append.2 (Or.inl
      (msgBranch_send _ packet _ hid1 hpl))))
  · rw [processPacket_data_some _ packet _ hty hpl]
    exact List.mem_append.2 (Or.inr (List.mem_append.2 (Or.inr
      (List.mem_append.2 (Or.inl (cfgBranch_send _ packet _ hid2 hpl))))))
  · rw [processPacket_data_some _ packet _ hty hpl]
    exact List.mem_append.2 (Or.inr (List.mem_append.2 (Or.inr
      (List.mem_append.2 (Or.inr (searchBranch_send _ packet _ hid3 hpl))))))

def c10Frame : IncomingPayload :=
  { payload := some (Json.obj []), type := "data", id := "" }

/-- Witness for C10: an empty-id `data` frame against the fresh client. -/
theorem C10_witness :
    NewChatPlugClient.msgSubID = "" ∧ NewChatPlugClient.cfgSubID = "" ∧
    NewChatPlugClient.searchSubID = "" ∧
    Effect.send ChanId.messages
        (SentValue.msg (decodeMessageReceivedPayload (Json.obj [])).1.data.messageReceived) ∈
      processPacket NewChatPlugClient c10Frame ∧
    Effect.send ChanId.configurationRecv
        (SentValue.cfg (decodeConfigurationReceivedPayload (Json.obj [])).1.data.configurationReceived) ∈
      processPacket NewChatPlugClient c10Frame ∧
    Effect.send ChanId.searchRequests
        (SentValue.search (decodeSearchRequestPayload (Json.obj [])).1.data.subscribeToSearchRequests) ∈
      processPacket NewChatPlugClient c10Frame :=
  C10_empty_ids_deliver_all c10Frame (Json.obj []) rfl rfl rfl

def c2Client : ChatPlugClient :=
  { msgSubID := "abc1", cfgSubID := "cfg1", searchSubID := "sr1" }

def c2BadFrame : IncomingPayload :=
  { payload := some (Json.str "not an object"), type := "data", id := "abc1" }

def c2GoodFrame : IncomingPayload :=
  { payload := some (Json.obj [("data", Json.obj [("messageReceived",
      Json.obj [("targetThreadId", Json.str "t1")])])]),
    type := "data", id := "abc1" }

/-- C2 (code bug): at a matched `data` frame whose body fails to decode, the
loop does not crash and a later well-formed frame is still delivered — but,
contrary to the claim, a value *is* delivered for the malformed frame: the
error is only printed and the zero-valued `MessageReceived` is still sent on
the messages channel, because the send is not skipped on decode error. -/
theorem C2_decode_error_still_delivers :
    (decodeMessageReceivedPayload (Json.str "not an object")).2 = true ∧
    Effect.send ChanId.messages (SentValue.msg default) ∈
      processPacket c2Client c2BadFrame ∧
    Effect.panicked ∉ processPacket c2Client c2BadFrame ∧
    clientLoopEffects c2Client [c2BadFrame, c2GoodFrame] =
      processPacket c2Client c2BadFrame ++ processPacket c2Client c2GoodFrame ∧
    Effect.send ChanId.messages
        (SentValue.msg { message := default, targetThreadId := "t1" }) ∈
      processPacket c2Client c2GoodFrame := by
  have hbad : processPacket c2Client c2BadFrame =
      [Effect.logged "data", Effect.logged "abc1", Effect.logged "cfg1",
       Effect.loggedDecodeError,
       Effect.send ChanId.messages (SentValue.msg default)] := rfl
  refine ⟨rfl, ?_, ?_, ?_, ?_⟩
  · rw [hbad]
    simp
  · rw [hbad]
    simp
  · rfl
  · rw [processPacket_data_some c2Client c2GoodFrame
      (Json.obj [("data", Json.obj [("messageReceived",
        Json.obj [("targetThreadId", Json.str "t1")])])]) rfl rfl]
    exact List.mem_append.2 (Or.inr (List.mem_append.2 (Or.inl
      (msgBranch_send c2Client c2GoodFrame _ rfl rfl))))

theorem mem_ite_append {x y : Effect} {b : Bool} {l : List Effect}
    (h : x ∈ (if b then [y] else []) ++ l) : x = y ∨ x ∈ l := by
  cases b with
  | true => simpa using h
  | false => exact Or.inr (by simpa using h)

theorem msgBranch_no_close (cpc : ChatPlugClient) (pk : IncomingPayload)
    (c : ChanId) : Effect.closeChan c ∉ (msgBranch cpc pk).1 := by
  unfold msgBranch
  split
  · cases hpk : pk.payload with
    | none => simp
    | some pl =>
      intro hmem
      rcases mem_ite_append hmem with h | h <;> simp at h
  · simp

theorem cfgBranch_no_close (cpc : ChatPlugClient) (pk : IncomingPayload)
    (c : ChanId) : Effect.closeChan c ∉ (cfgBranch cpc pk).1 := by
  unfold cfgBranch
  split
  · cases hpk : pk.payload with
    | none => simp
    | some pl =>
      intro hmem
      rcases mem_ite_append hmem with h | h <;> simp at h
  · simp

theorem searchBranch_no_close (cpc : ChatPlugClient) (pk : IncomingPayload)
    (c : ChanId) : Effect.closeChan c ∉ (searchBranch cpc pk).1 := by
  unfold searchBranch
  split
  · cases hpk : pk.payload with
    | none => simp
    | some pl =>
      intro hmem
      rcases mem_ite_append hmem with h | h <;> simp at h
  · simp

/-- No code path of the facade read loop closes a delivery channel. -/
theorem processPacket_no_close (cpc : ChatPlugClient) (pk : IncomingPayload)
    (c : ChanId) : Effect.closeChan c ∉ processPacket cpc pk := by
  unfold processPacket processPacketB
  split
  · intro hmem
    rcases List.mem_append.1 hmem with h | h
    · simp at h
    · rcases mem_seqB h with h | h
      · rcases mem_seqB h with h | h
        · exact msgBranch_no_close cpc pk c h
        · exact cfgBranch_no_close cpc pk c h
      · exact searchBranch_no_close cpc pk c h
  · simp

theorem clientLoop_no_close (cpc : ChatPlugClient) (packets : List IncomingPayload)
    (c : ChanId) : Effect.closeChan c ∉ clientLoopEffects cpc packets := by
  induction packets with
  | nil => simp [clientLoopEffects]
  | cons p ps ih =>
    show Effect.closeChan c ∉
      (if (processPacketB cpc p).2 then (processPacketB cpc p).1
       else (processPacketB cpc p).1 ++ clientLoopEffects cpc ps)
    split
    · exact processPacket_no_close cpc p c
    · intro hmem
      rcases List.mem_append.1 hmem with h | h
      · exact processPacket_no_close cpc p c h
      · exact ih h

def postCloseTrace : List Effect :=
  Close ++ gqlLoopStep (ReadResult.transportError "use of closed network connection")

/-- Counterexample to C8: after `Close()` the next read fails and the code
panics; in the resulting concrete trace none of the three delivery channels
is ever closed, so no terminal closed state observable by a `range`/`select`
consumer is reached. -/
theorem C8_counterexample :
    Effect.panicked ∈ postCloseTrace ∧
    Effect.closeChan ChanId.messages ∉ postCloseTrace ∧
    Effect.closeChan ChanId.configurationRecv ∉ postCloseTrace ∧
    Effect.closeChan ChanId.searchRequests ∉ postCloseTrace := by
  refine ⟨?_, ?_, ?_, ?_⟩ <;>
    simp [postCloseTrace, Close, gqlLoopStep, gqlLoopIter, ReadIncomingPayload]

/-- C8 as amended: after `Close()` the next read error makes
`ReadIncomingPayload` panic, which terminates the read loop by aborting the
goroutine (running the deferred closes of the inner packet/error channels on
the way out); the three delivery channels are never closed by any code path,
so a consumer is not released by a clean channel closure. -/
theorem C8_amended_close_panics (e : String) (cpc : ChatPlugClient)
    (packets : List IncomingPayload) (c : ChanId) :
    gqlLoopStep (ReadResult.transportError e) =
      [Effect.panicked, Effect.closedPacketChans] ∧
    Effect.closeChan c ∉ clientLoopEffects cpc packets :=
  ⟨rfl, clientLoop_no_close cpc packets c⟩
